import Mathlib

/-!
# Shipping-docs analysis: shallow embedding

A shallow embedding of the shipping-order document-analysis application:
two uploaded PDFs are converted to page images by a conversion endpoint,
structured fields are extracted per page by an extraction endpoint, and the
two extracted records are compared by a comparison endpoint.  The client-side
workflow controller (`processPdf`, `processSelectedImages`, `compareOrders`)
is embedded as pure state-transition functions; each HTTP route handler is
embedded as a pure function from the request, the environment configuration
and an oracle describing the upstream service's behaviour to a response plus
the list of outbound calls it performs.
-/

namespace ShippingDocs

/-! ## Basic data -/

/-- A structured record extracted by the LLM (the Zod-schema-conformant
object).  Its precise field content is irrelevant to the workflow, which only
carries it around; we model it as a list of field-name/value pairs.  A JS
object is always truthy, so presence/absence is modelled by `Option`. -/
structure OrderData where
  fields : List (String × String)
deriving Repr, DecidableEq

/-- An uploaded file as seen by the client and the route handlers: only its
MIME type matters to the code. -/
structure UploadedFile where
  fileType : String
deriving Repr, DecidableEq

/-- One entry of the `Files` array of the upstream conversion service's JSON
response (`FileData`, `FileName`, `FileExt`, `FileSize`). -/
structure FileInfo where
  fileData : String
  fileName : String
  fileExt : String
  fileSize : Nat
deriving Repr, DecidableEq

/-- The upstream conversion service's response: HTTP ok flag, and the parsed
body's `Files` field (`none` models an absent or non-array `Files`). -/
structure UpstreamResp where
  ok : Bool
  files : Option (List FileInfo)
deriving Repr, DecidableEq

/-- Environment configuration: the two configuration-supplied credentials,
`none` when the variable is absent from the environment. -/
structure Env where
  openaiApiKey : Option String
  convertApiSecret : Option String
deriving Repr, DecidableEq

/-- An outbound call performed by a route handler. -/
inductive Outbound where
  | convertCall
  | llmCall
deriving Repr, DecidableEq

/-! ## Comparison schema (the Zod `ComparisonResultSchema`) -/

inductive Severity where
  | critical
  | major
  | minor
deriving Repr, DecidableEq

inductive Quality where
  | excellent
  | good
  | fair
  | poor
deriving Repr, DecidableEq

structure Discrepancy where
  field : String
  order1_value : String
  order2_value : String
  severity : Severity
  description : String
deriving Repr, DecidableEq

structure MatchRec where
  field : String
  value : String
  confidence : ℚ
deriving Repr, DecidableEq

structure Analysis where
  overall_confidence : ℚ
  comparison_quality : Quality
  potential_issues : List String
  recommendation : String
deriving Repr, DecidableEq

/-- The model's structured comparison output.  Note: the schema has no
manual-review field; the flag is not part of the model's output. -/
structure Comparison where
  discrepancies : List Discrepancy
  «matches» : List MatchRec
  analysis : Analysis
  summary : String
deriving Repr, DecidableEq

/-! ## Route-handler responses

Each JSON body is modelled with `Option` fields: `none` means the key is
absent from the JSON object (hence `undefined`, hence falsy, on the client).
-/

/-- One page record of the conversion endpoint's success payload. -/
structure PageRec where
  pageNumber : Nat
  imageDataUrl : String
  width : Nat
  height : Nat
  fileName : String
  fileExt : String
  fileSize : Nat
deriving Repr, DecidableEq

/-- JSON body of a conversion-endpoint response. -/
structure ConvertBody where
  success : Option Bool := none
  totalPages : Option Nat := none
  pages : Option (List PageRec) := none
  error : Option String := none
deriving Repr, DecidableEq

/-- A conversion-endpoint response: HTTP status plus JSON body. -/
structure ConvertResponse where
  status : Nat
  body : ConvertBody
deriving Repr, DecidableEq

/-- JSON body of an extraction-endpoint response. -/
structure ExtractBody where
  success : Option Bool := none
  data : Option OrderData := none
  extractedAt : Option String := none
  error : Option String := none
deriving Repr, DecidableEq

/-- An extraction-endpoint response: HTTP status plus JSON body. -/
structure ExtractResponse where
  status : Nat
  body : ExtractBody
deriving Repr, DecidableEq

/-- JSON body of a comparison-endpoint response; this is also exactly what
the client stores as its `ComparisonResult`. -/
structure CompareBody where
  success : Option Bool := none
  comparison : Option Comparison := none
  needsManualReview : Option Bool := none
  comparedAt : Option String := none
  error : Option String := none
deriving Repr, DecidableEq

/-- A comparison-endpoint response: HTTP status plus JSON body. -/
structure CompareResponse where
  status : Nat
  body : CompareBody
deriving Repr, DecidableEq

/-- Outcome of one upstream LLM invocation: a schema-conformant value, or a
thrown error with a message. -/
inductive LlmOutcome (α : Type) where
  | ok (val : α)
  | err (msg : String)
deriving Repr, DecidableEq

/-! ## Route handler: POST /api/process-pdf (the conversion endpoint)

Embeds the handler faithfully, including:
  - the `process.env.CONVERTAPI_SECRET || '4FkbnBsk9bN53Gv5dtw4UmbuAIcGTg65'`
    fallback (an empty env value is falsy in JS, so it too selects the
    default);
  - the diagnostic `console.log(Object.keys(result.Files[0]))` that runs
    BEFORE the `Files` check: when `Files` is absent it throws a `TypeError`
    at `result.Files[0]`, and when `Files` is the empty array,
    `Object.keys(undefined)` throws — both are caught by the handler's
    `catch`, yielding the `success: false` 500 response.
-/

/-- The hardcoded fallback value of the ConvertAPI secret. -/
def defaultConvertSecret : String := "4FkbnBsk9bN53Gv5dtw4UmbuAIcGTg65"

/-- The secret actually used: `process.env.CONVERTAPI_SECRET || default`. -/
def effectiveSecret (env : Env) : String :=
  match env.convertApiSecret with
  | none => defaultConvertSecret
  | some s => if s = "" then defaultConvertSecret else s

/-- The page record built for the i-th converted file (0-based `i`). -/
def mkPageRec (i : Nat) (f : FileInfo) : PageRec :=
  { pageNumber := i + 1
    imageDataUrl := "data:image/jpeg;base64," ++ f.fileData
    width := 800
    height := 1000
    fileName := f.fileName
    fileExt := f.fileExt
    fileSize := f.fileSize }

/-- POST /api/process-pdf.  `pdfFile` is the form field `pdf`; `upstream`
describes the ConvertAPI response the outbound call would observe.  Returns
the response and the list of outbound calls performed. -/
def processPdfPOST (env : Env) (pdfFile : Option UploadedFile)
    (upstream : UpstreamResp) : ConvertResponse × List Outbound :=
  match pdfFile with
  | none =>
      (⟨400, { error := some "No PDF file provided" }⟩, [])
  | some _ =>
      if effectiveSecret env = "" then
        (⟨500, { error := some "ConvertAPI secret is not configured" }⟩, [])
      else if upstream.ok = false then
        (⟨500, { success := some false,
                 error := some "ConvertAPI error" }⟩, [.convertCall])
      else
        match upstream.files with
        | none =>
            (⟨500, { success := some false,
                     error := some "TypeError: Cannot read properties of undefined" }⟩,
             [.convertCall])
        | some [] =>
            (⟨500, { success := some false,
                     error := some "TypeError: Cannot convert undefined or null to object" }⟩,
             [.convertCall])
        | some fs =>
            (⟨200, { success := some true,
                     totalPages := some fs.length,
                     pages := some (fs.enum.map (fun p => mkPageRec p.1 p.2)) }⟩,
             [.convertCall])

/-! ## Route handler: POST /api/extract-invoice (image extraction) -/

/-- POST /api/extract-invoice.  `image` is the form field `image`; `llm`
describes the upstream model invocation's outcome; `now` is the wall clock
read by `new Date().toISOString()`. -/
def extractInvoicePOST (env : Env) (image : Option UploadedFile)
    (llm : LlmOutcome OrderData) (now : String) :
    ExtractResponse × List Outbound :=
  match env.openaiApiKey with
  | none =>
      (⟨500, { error := some "OpenAI API key is not configured" }⟩, [])
  | some _ =>
      match image with
      | none => (⟨400, { error := some "No image file provided" }⟩, [])
      | some _ =>
          match llm with
          | .ok d =>
              (⟨200, { success := some true, data := some d,
                       extractedAt := some now }⟩, [.llmCall])
          | .err m =>
              (⟨500, { success := some false, error := some m }⟩, [.llmCall])

/-! ## Route handler: POST /api/extract-text (Croatian-invoice text extraction)

The request body is JSON `\x7btext\x7d`; `!text || typeof text !== 'string'`
rejects an absent or empty-string text (an empty string is falsy in JS).
-/

/-- POST of the text-extraction endpoint. -/
def extractTextPOST (env : Env) (text : Option String)
    (llm : LlmOutcome OrderData) (now : String) :
    ExtractResponse × List Outbound :=
  match env.openaiApiKey with
  | none =>
      (⟨500, { error := some "OpenAI API key is not configured" }⟩, [])
  | some _ =>
      match text with
      | none => (⟨400, { error := some "No text input provided" }⟩, [])
      | some t =>
          if t = "" then
            (⟨400, { error := some "No text input provided" }⟩, [])
          else
            match llm with
            | .ok d =>
                (⟨200, { success := some true, data := some d,
                         extractedAt := some now }⟩, [.llmCall])
            | .err m =>
                (⟨500, { success := some false, error := some m }⟩, [.llmCall])

/-! ## Route handler: POST /api/compare-orders -/

/-- POST /api/compare-orders.  `order1`, `order2` are the parsed request
fields (JS objects are truthy, absence is falsy).  On success the handler
computes `needsManualReview := response.analysis.overall_confidence < 0.8`
locally and attaches it to the response. -/
def compareOrdersPOST (env : Env) (order1 order2 : Option OrderData)
    (llm : LlmOutcome Comparison) (now : String) :
    CompareResponse × List Outbound :=
  match env.openaiApiKey with
  | none =>
      (⟨500, { error := some "OpenAI API key is not configured" }⟩, [])
  | some _ =>
      match order1, order2 with
      | none, _ =>
          (⟨400, { error := some "Both order1 and order2 data are required" }⟩, [])
      | some _, none =>
          (⟨400, { error := some "Both order1 and order2 data are required" }⟩, [])
      | some _, some _ =>
          match llm with
          | .ok c =>
              (⟨200, { success := some true,
                       comparison := some c,
                       needsManualReview :=
                         some (decide (c.analysis.overall_confidence < 4/5)),
                       comparedAt := some now }⟩, [.llmCall])
          | .err m =>
              (⟨500, { success := some false, error := some m }⟩, [.llmCall])

/-! ## Client-side data model (the `PdfUploader` component) -/

/-- A client-side page image (`PageImage` interface). -/
structure PageImage where
  pageNumber : Nat
  imageDataUrl : String
  selected : Bool
  width : Option Nat := none
  height : Option Nat := none
deriving Repr, DecidableEq

/-- A client-side extraction result (`ExtractedData` interface).  The entries
are built by spreading a server JSON body, so `success` can be absent at
runtime (a precondition-failure body carries no `success` key); `Option Bool`
with JS truthiness `getD false` models this. -/
structure ExtractedData where
  success : Option Bool := none
  data : Option OrderData := none
  error : Option String := none
  extractedAt : Option String := none
  pageNumber : Option Nat := none
deriving Repr, DecidableEq

/-- JS truthiness of `result.success`. -/
def ExtractedData.truthySuccess (r : ExtractedData) : Bool :=
  r.success.getD false

/-- One document session (`PdfData` interface). -/
structure PdfData where
  file : Option UploadedFile := none
  pageImages : List PageImage := []
  loading : Bool := false
  extractedData : List ExtractedData := []
  processing : Bool := false
deriving Repr, DecidableEq

/-- Whole-app comparison-related state: the two sessions plus the shared
comparison slice (`comparisonResult`, `comparing`). -/
structure AppState where
  pdf1 : PdfData
  pdf2 : PdfData
  comparisonResult : Option CompareBody := none
  comparing : Bool := false
deriving Repr, DecidableEq

/-- A user-visible event emitted by a client operation. -/
inductive ClientEvent where
  | alert (msg : String)
  | extractCall (page : Nat)
  | extractDone (page : Nat)
deriving Repr, DecidableEq

/-! ## Client: `processPdf` composed with the conversion route

`processPdf` first rejects a missing or non-PDF file with an alert (no
request is sent); otherwise it POSTs the file to /api/process-pdf and, when
the body's `success` is truthy, stores the returned pages; any non-success
body makes it throw into its catch, which alerts.  We model the whole
pipeline — client guard plus route — as the Conversion Gateway, returning
either the list of client `PageImage`s or a user-facing error string.
-/

/-- Conversion Gateway: the client-side `processPdf` guard composed with the
POST /api/process-pdf handler. -/
def conversionGateway (env : Env) (file : Option UploadedFile)
    (upstream : UpstreamResp) : Except String (List PageImage) :=
  match file with
  | none => .error "Please select a valid PDF file"
  | some f =>
      if f.fileType ≠ "application/pdf" then
        .error "Please select a valid PDF file"
      else
        let resp := (processPdfPOST env (some f) upstream).1
        if resp.body.success = some true then
          .ok ((resp.body.pages.getD []).map (fun p =>
            { pageNumber := p.pageNumber
              imageDataUrl := p.imageDataUrl
              selected := false
              width := some p.width
              height := some p.height }))
        else
          .error "Error processing PDF. Please try again."

/-! ## Client: `processSelectedImages` -/

/-- What the client observes for one page's extraction request: a parsed
JSON body (any fetch that resolved), or a thrown error (network failure,
or failure of the data-URL-to-blob step). -/
inductive PageFetch where
  | resp (r : ExtractBody)
  | thrown
deriving Repr, DecidableEq

/-- The `ExtractedData` entry recorded for one selected page: on a resolved
fetch, the body spread with `pageNumber` overridden to the page's number; on
a thrown error, the locally built failure entry. -/
def pageResult (img : PageImage) (f : Nat → PageFetch) : ExtractedData :=
  match f img.pageNumber with
  | .resp r =>
      { success := r.success, data := r.data, error := r.error,
        extractedAt := r.extractedAt, pageNumber := some img.pageNumber }
  | .thrown =>
      { success := some false,
        error := some ("Failed to process page " ++ toString img.pageNumber),
        pageNumber := some img.pageNumber }

/-- The sequential per-page loop of `processSelectedImages`: each page's call
is awaited to completion (its `extractDone`) before the next page's call
starts, and each page's outcome is appended to `results` whether it succeeded
or failed. -/
def runPages (imgs : List PageImage) (f : Nat → PageFetch) :
    List ExtractedData × List ClientEvent :=
  match imgs with
  | [] => ([], [])
  | img :: rest =>
      let r := pageResult img f
      let (rs, evs) := runPages rest f
      (r :: rs, .extractCall img.pageNumber :: .extractDone img.pageNumber :: evs)

/-- The `selectedImages` local of `processSelectedImages`: the pages of the
session currently flagged as selected, in page order. -/
def selectedImages (st : PdfData) : List PageImage :=
  st.pageImages.filter (fun img => img.selected)

/-- `processSelectedImages`: with no page selected, alert and return (state
untouched, no outbound call); otherwise run the sequential loop over the
selected pages and replace `extractedData` wholesale with the new results. -/
def processSelectedImages (st : PdfData) (f : Nat → PageFetch) :
    PdfData × List ClientEvent :=
  if (selectedImages st).length = 0 then
    (st, [.alert "Please select at least one page to process"])
  else
    let (results, evs) := runPages (selectedImages st) f
    ({ st with extractedData := results, processing := false }, evs)

/-! ## Client: `compareOrders` -/

/-- The data of the first truthy-success extraction result, as computed by
`pdfN.extractedData.find(result => result.success)?.data`. -/
def firstSuccessData (rs : List ExtractedData) : Option OrderData :=
  (rs.find? (fun r => r.truthySuccess)).bind (fun r => r.data)

/-- What `compareOrders` observes from its fetch of /api/compare-orders:
a parsed JSON body, or a thrown error. -/
inductive CompareFetch where
  | resp (r : CompareBody)
  | thrown
deriving Repr, DecidableEq

/-- The comparison result the client stores once the call completes. -/
def storedComparison (f : CompareFetch) : CompareBody :=
  match f with
  | .resp r => r
  | .thrown =>
      { success := some false,
        error := some "Failed to compare orders. Please try again." }

/-- A run of `compareOrders`: whether it alerted, the payload of the outbound
call if one was issued, the app states observable at suspension points while
the call is in flight, and the final state. -/
structure CompareRun where
  alerted : Bool
  call : Option (OrderData × OrderData)
  inFlightStates : List AppState
  final : AppState
deriving Repr, DecidableEq

/-- `compareOrders`: reads the first successful extraction of each document;
if either is missing, alerts and leaves the state unchanged with no call.
Otherwise it sets `comparing` and clears `comparisonResult` (one batched
update, committed before the fetch suspends), issues the call with exactly
the two first-success records, and after completion stores the outcome and
clears `comparing` (again one batched update). -/
def compareOrders (s : AppState) (f : CompareFetch) : CompareRun :=
  match firstSuccessData s.pdf1.extractedData,
        firstSuccessData s.pdf2.extractedData with
  | some d1, some d2 =>
      let inFlight : AppState := { s with comparing := true, comparisonResult := none }
      let done : AppState :=
        { inFlight with comparisonResult := some (storedComparison f),
                        comparing := false }
      { alerted := false, call := some (d1, d2),
        inFlightStates := [inFlight], final := done }
  | _, _ =>
      { alerted := true, call := none, inFlightStates := [], final := s }

/-! ## Supporting lemmas -/

theorem effectiveSecret_ne_empty (env : Env) : effectiveSecret env ≠ "" := by
  unfold effectiveSecret
  cases env.convertApiSecret with
  | none => decide
  | some s =>
      dsimp only
      split
      · decide
      · assumption

theorem runPages_results (imgs : List PageImage) (f : Nat → PageFetch) :
    (runPages imgs f).1 = imgs.map (fun img => pageResult img f) := by
  induction imgs with
  | nil => rfl
  | cons img rest ih => simp [runPages, ih]

theorem runPages_events (imgs : List PageImage) (f : Nat → PageFetch) :
    (runPages imgs f).2
      = imgs.flatMap (fun img =>
          [ClientEvent.extractCall img.pageNumber,
           ClientEvent.extractDone img.pageNumber]) := by
  induction imgs with
  | nil => rfl
  | cons img rest ih => simp [runPages, ih]

theorem pageResult_pageNumber (img : PageImage) (f : Nat → PageFetch) :
    (pageResult img f).pageNumber = some img.pageNumber := by
  unfold pageResult
  cases f img.pageNumber <;> rfl

theorem map_pageNumber_of_results (imgs : List PageImage) (f : Nat → PageFetch) :
    (imgs.map (fun img => pageResult img f)).map (fun r => r.pageNumber)
      = imgs.map (fun img => some img.pageNumber) := by
  induction imgs with
  | nil => rfl
  | cons img rest ih => simp [ih, pageResult_pageNumber]

/-! ## Claims -/

/-- C1: for every comparison response produced with the upstream model
returning an analysis whose overall confidence lies in [0,1], the returned
`needsManualReview` flag is true if and only if the confidence is below 0.8,
and the flag is exactly the locally computed threshold bit on the returned
confidence (the model's output schema carries no review flag, so the flag is
not taken from the model). -/
theorem C1_needsManualReview_threshold (k : String) (sec : Option String)
    (o1 o2 : OrderData) (c : Comparison) (now : String)
    (_h0 : 0 ≤ c.analysis.overall_confidence)
    (_h1 : c.analysis.overall_confidence ≤ 1) :
    (((compareOrdersPOST ⟨some k, sec⟩ (some o1) (some o2) (.ok c) now).1.body.needsManualReview
        = some true) ↔ c.analysis.overall_confidence < 4/5)
    ∧ (compareOrdersPOST ⟨some k, sec⟩ (some o1) (some o2) (.ok c) now).1.body.needsManualReview
        = some (decide (c.analysis.overall_confidence < 4/5)) := by
  constructor
  · simp [compareOrdersPOST]
  · rfl

/-- A concrete comparison output with confidence 1/2, used by witnesses. -/
def sampleComparison : Comparison :=
  { discrepancies := []
    «matches» := []
    analysis := { overall_confidence := 1/2, comparison_quality := .fair,
                  potential_issues := [], recommendation := "review manually" }
    summary := "half-confidence comparison" }

theorem C1_needsManualReview_threshold_witness :
    (0 ≤ sampleComparison.analysis.overall_confidence)
    ∧ (sampleComparison.analysis.overall_confidence ≤ 1)
    ∧ ((((compareOrdersPOST ⟨some "key", none⟩ (some ⟨[]⟩) (some ⟨[]⟩)
            (.ok sampleComparison) "t").1.body.needsManualReview = some true) ↔
          sampleComparison.analysis.overall_confidence < 4/5)
        ∧ (compareOrdersPOST ⟨some "key", none⟩ (some ⟨[]⟩) (some ⟨[]⟩)
            (.ok sampleComparison) "t").1.body.needsManualReview
          = some (decide (sampleComparison.analysis.overall_confidence < 4/5))) :=
  ⟨by norm_num [sampleComparison], by norm_num [sampleComparison],
   C1_needsManualReview_threshold "key" none ⟨[]⟩ ⟨[]⟩ sampleComparison "t"
     (by norm_num [sampleComparison]) (by norm_num [sampleComparison])⟩

/-- C3: for every extraction run with at least one selected page, the new
results array has one entry per selected page (length equal to the number of
selected pages at trigger time), the i-th entry is tagged with the i-th
selected page's page number whether that page succeeded or failed, and the
array replaces the previous results wholesale: the outcome does not depend on
the prior `extractedData` at all. -/
theorem C3_results_shape (st : PdfData) (f : Nat → PageFetch)
    (h : selectedImages st ≠ []) :
    ((processSelectedImages st f).1.extractedData.length = (selectedImages st).length)
    ∧ ((processSelectedImages st f).1.extractedData.map (fun r => r.pageNumber)
        = (selectedImages st).map (fun img => some img.pageNumber))
    ∧ (∀ old : List ExtractedData,
        (processSelectedImages { st with extractedData := old } f).1.extractedData
          = (processSelectedImages st f).1.extractedData) := by
  have hlen : ¬ (selectedImages st).length = 0 := by
    simpa [List.length_eq_zero] using h
  have hsel : ∀ old : List ExtractedData,
      selectedImages { st with extractedData := old } = selectedImages st :=
    fun _ => rfl
  refine ⟨?_, ?_, ?_⟩
  · simp [processSelectedImages, hlen, runPages_results]
  · simp [processSelectedImages, hlen, runPages_results]
    intro a _
    exact pageResult_pageNumber a f
  · intro old
    simp [processSelectedImages, hsel, hlen, runPages_results]

/-- A two-page session with only page 2 selected, used by witnesses. -/
def stOneSelected : PdfData :=
  { file := some ⟨"application/pdf"⟩
    pageImages :=
      [ { pageNumber := 1, imageDataUrl := "u1", selected := false },
        { pageNumber := 2, imageDataUrl := "u2", selected := true } ]
    loading := false
    extractedData := [ { success := some false, error := some "old failure" } ]
    processing := false }

theorem C3_results_shape_witness :
    ((processSelectedImages stOneSelected (fun _ => .thrown)).1.extractedData.length
        = (selectedImages stOneSelected).length)
    ∧ ((processSelectedImages stOneSelected (fun _ => .thrown)).1.extractedData.map
          (fun r => r.pageNumber)
        = (selectedImages stOneSelected).map (fun img => some img.pageNumber))
    ∧ (∀ old : List ExtractedData,
        (processSelectedImages { stOneSelected with extractedData := old }
            (fun _ => .thrown)).1.extractedData
          = (processSelectedImages stOneSelected (fun _ => .thrown)).1.extractedData) :=
  C3_results_shape stOneSelected (fun _ => .thrown) (by decide)

/-- C4: for every extraction run, the emitted trace is exactly, for each
selected page in order, its outbound call followed by its completion — so the
calls are issued strictly one at a time in page order, each completing before
the next starts — and the recorded results are exactly the per-page outcomes:
each selected page contributes its own entry computed only from its own
call's outcome, so one page's failure aborts nothing. -/
theorem C4_sequential_independent (st : PdfData) (f : Nat → PageFetch)
    (h : selectedImages st ≠ []) :
    ((processSelectedImages st f).2
        = (selectedImages st).flatMap (fun img =>
            [ClientEvent.extractCall img.pageNumber,
             ClientEvent.extractDone img.pageNumber]))
    ∧ ((processSelectedImages st f).1.extractedData
        = (selectedImages st).map (fun img => pageResult img f)) := by
  have hlen : ¬ (selectedImages st).length = 0 := by
    simpa [List.length_eq_zero] using h
  constructor
  · simp [processSelectedImages, hlen, runPages_events]
  · simp [processSelectedImages, hlen, runPages_results]

theorem C4_sequential_independent_witness :
    ((processSelectedImages stOneSelected (fun _ => .thrown)).2
        = (selectedImages stOneSelected).flatMap (fun img =>
            [ClientEvent.extractCall img.pageNumber,
             ClientEvent.extractDone img.pageNumber]))
    ∧ ((processSelectedImages stOneSelected (fun _ => .thrown)).1.extractedData
        = (selectedImages stOneSelected).map
            (fun img => pageResult img (fun _ => .thrown))) :=
  C4_sequential_independent stOneSelected (fun _ => .thrown) (by decide)

/-- C7: triggering extraction with zero selected pages leaves the session
exactly as it was (in particular the prior results are untouched) and emits
only the user-facing alert — no outbound extraction call. -/
theorem C7_no_selection_no_change (st : PdfData) (f : Nat → PageFetch)
    (h : selectedImages st = []) :
    processSelectedImages st f
      = (st, [ClientEvent.alert "Please select at least one page to process"]) := by
  simp [processSelectedImages, h]

/-- A session with pages present but none selected, and a prior result. -/
def stNoneSelected : PdfData :=
  { file := some ⟨"application/pdf"⟩
    pageImages := [ { pageNumber := 1, imageDataUrl := "u1", selected := false } ]
    loading := false
    extractedData :=
      [ { success := some true, data := some ⟨[("OrderNumber", "42")]⟩,
          pageNumber := some 1 } ]
    processing := false }

theorem C7_no_selection_no_change_witness :
    processSelectedImages stNoneSelected (fun _ => .thrown)
      = (stNoneSelected,
         [ClientEvent.alert "Please select at least one page to process"]) :=
  C7_no_selection_no_change stNoneSelected (fun _ => .thrown) (by decide)

/-! ## Claims about `compareOrders` -/

/-- Well-formedness of a session's results: every truthy-success entry
carries a data record.  This holds for every entry the system itself can
produce (the extraction endpoint attaches `data` on every success) and is the
reachable-state invariant under which the comparison gate reads "at least one
successful result". -/
def resultsWF (rs : List ExtractedData) : Prop :=
  ∀ r ∈ rs, r.truthySuccess = true → r.data.isSome = true

instance (rs : List ExtractedData) : Decidable (resultsWF rs) := by
  unfold resultsWF
  infer_instance

/-- The extraction endpoint only reports success together with a data
record, so client sessions fed by it satisfy `resultsWF`. -/
theorem extractInvoicePOST_success_has_data (env : Env) (img : Option UploadedFile)
    (llm : LlmOutcome OrderData) (now : String)
    (h : (extractInvoicePOST env img llm now).1.body.success = some true) :
    (extractInvoicePOST env img llm now).1.body.data.isSome = true := by
  rcases env with ⟨key, sec⟩
  cases key <;> cases img <;> cases llm <;> simp_all [extractInvoicePOST]

theorem firstSuccessData_eq_some_first {rs : List ExtractedData} {d : OrderData}
    (h : firstSuccessData rs = some d) :
    ∃ r pre post, rs = pre ++ r :: post ∧ r.truthySuccess = true
      ∧ r.data = some d ∧ ∀ q ∈ pre, q.truthySuccess = false := by
  unfold firstSuccessData at h
  rcases Option.bind_eq_some.mp h with ⟨r, hfind, hdata⟩
  rcases List.find?_eq_some.mp hfind with ⟨hp, pre, post, hsplit, hall⟩
  exact ⟨r, pre, post, hsplit, hp, hdata,
    fun q hq => by simpa using hall q hq⟩

theorem firstSuccessData_isSome_iff {rs : List ExtractedData} (hwf : resultsWF rs) :
    (firstSuccessData rs).isSome = true ↔ ∃ r ∈ rs, r.truthySuccess = true := by
  constructor
  · intro h
    rcases Option.isSome_iff_exists.mp h with ⟨d, hd⟩
    unfold firstSuccessData at hd
    rcases Option.bind_eq_some.mp hd with ⟨r, hfind, _⟩
    exact ⟨r, List.mem_of_find?_eq_some hfind, List.find?_some hfind⟩
  · rintro ⟨r, hmem, hr⟩
    have hfs : (rs.find? (fun q => q.truthySuccess)).isSome = true := by
      rw [List.find?_isSome]
      exact ⟨r, hmem, hr⟩
    rcases Option.isSome_iff_exists.mp hfs with ⟨r', hr'⟩
    have hdata := hwf r' (List.mem_of_find?_eq_some hr') (List.find?_some hr')
    rcases Option.isSome_iff_exists.mp hdata with ⟨d, hd⟩
    simp [firstSuccessData, hr', hd]

/-- C2: `compareOrders` issues its outbound call exactly when each document
has at least one successful extraction result (under the invariant that
successful results carry data, which the extraction endpoint guarantees);
when it does not, it alerts and changes nothing; when it does, the payload is
exactly the data of the first successful result of each document in
result-array order — every entry before it is a failure — not an aggregate. -/
theorem C2_compare_gating (s : AppState) (f : CompareFetch)
    (h1 : resultsWF s.pdf1.extractedData) (h2 : resultsWF s.pdf2.extractedData) :
    ((compareOrders s f).call.isSome = true ↔
        ((∃ r ∈ s.pdf1.extractedData, r.truthySuccess = true)
          ∧ (∃ r ∈ s.pdf2.extractedData, r.truthySuccess = true)))
    ∧ ((compareOrders s f).call = none →
        (compareOrders s f).alerted = true ∧ (compareOrders s f).final = s)
    ∧ (∀ d1 d2, (compareOrders s f).call = some (d1, d2) →
        (∃ r pre post, s.pdf1.extractedData = pre ++ r :: post
            ∧ r.truthySuccess = true ∧ r.data = some d1
            ∧ ∀ q ∈ pre, q.truthySuccess = false)
        ∧ (∃ r pre post, s.pdf2.extractedData = pre ++ r :: post
            ∧ r.truthySuccess = true ∧ r.data = some d2
            ∧ ∀ q ∈ pre, q.truthySuccess = false)) := by
  have k1 := firstSuccessData_isSome_iff h1
  have k2 := firstSuccessData_isSome_iff h2
  cases hc1 : firstSuccessData s.pdf1.extractedData with
  | none =>
      rw [hc1] at k1
      simp only [Option.isSome_none, Bool.false_eq_true, false_iff] at k1
      cases hc2 : firstSuccessData s.pdf2.extractedData <;>
        simp [compareOrders, hc1, hc2, k1]
  | some d1 =>
      rw [hc1] at k1
      cases hc2 : firstSuccessData s.pdf2.extractedData with
      | none =>
          rw [hc2] at k2
          simp only [Option.isSome_none, Bool.false_eq_true, false_iff] at k2
          simp [compareOrders, hc1, hc2, k2]
      | some d2 =>
          rw [hc2] at k2
          refine ⟨?_, ?_, ?_⟩
          · simp only [compareOrders, hc1, hc2]
            simp only [Option.isSome_some, true_iff]
            exact ⟨k1.mp rfl, k2.mp rfl⟩
          · simp [compareOrders, hc1, hc2]
          · intro e1 e2 he
            simp only [compareOrders, hc1, hc2] at he
            simp only [Option.some_inj, Prod.mk.injEq] at he
            rcases he with ⟨he1, he2⟩
            subst he1
            subst he2
            exact ⟨firstSuccessData_eq_some_first hc1,
                   firstSuccessData_eq_some_first hc2⟩

/-- A concrete extracted order record for document 1. -/
def orderA : OrderData := ⟨[("OrderNumber", "A-1")]⟩

/-- A concrete extracted order record for document 2. -/
def orderB : OrderData := ⟨[("OrderNumber", "B-2")]⟩

/-- A ready-to-compare app state: document 1 holds a failure followed by a
success, document 2 a single success. -/
def appStateReady : AppState :=
  { pdf1 :=
      { pageImages := []
        extractedData :=
          [ { success := some false, error := some "failed page", pageNumber := some 1 },
            { success := some true, data := some orderA, pageNumber := some 2 } ] }
    pdf2 :=
      { pageImages := []
        extractedData :=
          [ { success := some true, data := some orderB, pageNumber := some 1 } ] }
    comparisonResult :=
      some { success := some false, error := some "stale failure" }
    comparing := false }

theorem C2_compare_gating_witness :
    ((compareOrders appStateReady .thrown).call.isSome = true ↔
        ((∃ r ∈ appStateReady.pdf1.extractedData, r.truthySuccess = true)
          ∧ (∃ r ∈ appStateReady.pdf2.extractedData, r.truthySuccess = true)))
    ∧ ((compareOrders appStateReady .thrown).call = none →
        (compareOrders appStateReady .thrown).alerted = true
          ∧ (compareOrders appStateReady .thrown).final = appStateReady)
    ∧ (∀ d1 d2, (compareOrders appStateReady .thrown).call = some (d1, d2) →
        (∃ r pre post, appStateReady.pdf1.extractedData = pre ++ r :: post
            ∧ r.truthySuccess = true ∧ r.data = some d1
            ∧ ∀ q ∈ pre, q.truthySuccess = false)
        ∧ (∃ r pre post, appStateReady.pdf2.extractedData = pre ++ r :: post
            ∧ r.truthySuccess = true ∧ r.data = some d2
            ∧ ∀ q ∈ pre, q.truthySuccess = false)) :=
  C2_compare_gating appStateReady .thrown (by decide) (by decide)

/-- C10: during a run of `compareOrders`, every state observable while the
outbound call is in flight has `comparing = true` and a `null` stored
comparison result; when a call is issued, the state committed before the call
is exactly the prior state with `comparing` set and the result cleared, and
the new result (the call's own outcome) is stored only in the final state,
together with `comparing = false`; when no call is issued the state is
untouched.  Hence a stale prior comparison is never observable during a
re-comparison. -/
theorem C10_inflight_result_null (s : AppState) (f : CompareFetch) :
    (∀ t ∈ (compareOrders s f).inFlightStates,
        t.comparing = true ∧ t.comparisonResult = none)
    ∧ ((compareOrders s f).call.isSome = true →
        (compareOrders s f).inFlightStates
            = [{ s with comparing := true, comparisonResult := none }]
          ∧ (compareOrders s f).final.comparisonResult = some (storedComparison f)
          ∧ (compareOrders s f).final.comparing = false)
    ∧ ((compareOrders s f).call = none → (compareOrders s f).final = s) := by
  cases hc1 : firstSuccessData s.pdf1.extractedData <;>
    cases hc2 : firstSuccessData s.pdf2.extractedData <;>
      simp [compareOrders, hc1, hc2]

/-! ## Claims about the Conversion Gateway and credentials -/

/-- Whether the Conversion Gateway run succeeded. -/
def convSucceeds (env : Env) (file : Option UploadedFile) (up : UpstreamResp) : Bool :=
  match conversionGateway env file up with
  | .ok _ => true
  | .error _ => false

/-- The Conversion Gateway failure condition as claim C5 words it: no file
supplied, the file is not of PDF type, the upstream service returned a
non-success status, or the upstream response lacks the expected page list.
(Stated from the specification's words, to be compared with the embedded
code's behaviour.) -/
def specC5FailCond (file : Option UploadedFile) (up : UpstreamResp) : Bool :=
  (match file with
   | none => true
   | some f => decide (f.fileType ≠ "application/pdf"))
  || !up.ok || up.files.isNone

/-- C5 counterexample: a PDF file whose upstream conversion returns a
success status and a present-but-empty page list is outside every failure
case the claim enumerates, yet the gateway fails on it (the handler's
diagnostic `Object.keys(result.Files[0])` throws on an empty `Files` array
before the success path is reached). -/
theorem C5_counterexample :
    convSucceeds ⟨some "key", some "secret"⟩ (some ⟨"application/pdf"⟩) ⟨true, some []⟩
        = false
    ∧ specC5FailCond (some ⟨"application/pdf"⟩) ⟨true, some []⟩ = false := by
  constructor <;> rfl

/-- C5 amended: the Conversion Gateway fails exactly when no file is
supplied, the file is not of PDF type, the upstream service returns a
non-success status, or the upstream response's page list is absent **or
empty**; in every other case it succeeds. -/
theorem C5_gateway_failure_characterisation (env : Env) (file : Option UploadedFile)
    (up : UpstreamResp) :
    convSucceeds env file up = false ↔
      (file = none
        ∨ (∃ f, file = some f ∧ f.fileType ≠ "application/pdf")
        ∨ up.ok = false
        ∨ up.files = none
        ∨ up.files = some []) := by
  have hsec := effectiveSecret_ne_empty env
  rcases up with ⟨ok, files⟩
  cases file with
  | none => simp [convSucceeds, conversionGateway]
  | some f =>
      by_cases hft : f.fileType = "application/pdf"
      · cases ok with
        | false =>
            simp [convSucceeds, conversionGateway, processPdfPOST, hft, hsec]
        | true =>
            rcases files with _ | (_ | ⟨f0, fs⟩) <;>
              simp [convSucceeds, conversionGateway, processPdfPOST, hft, hsec]
      · simp [convSucceeds, conversionGateway, hft]

/-- A concrete well-formed upstream conversion outcome with two page files. -/
def sampleFiles : List FileInfo :=
  [ { fileData := "QUFB", fileName := "doc-1.jpg", fileExt := "jpg", fileSize := 10 },
    { fileData := "QkJC", fileName := "doc-2.jpg", fileExt := "jpg", fileSize := 11 } ]

theorem C5_gateway_failure_characterisation_witness :
    convSucceeds ⟨none, none⟩ (some ⟨"text/plain"⟩) ⟨true, some sampleFiles⟩ = false ↔
      ((some (UploadedFile.mk "text/plain") : Option UploadedFile) = none
        ∨ (∃ f, (some (UploadedFile.mk "text/plain") : Option UploadedFile) = some f
              ∧ f.fileType ≠ "application/pdf")
        ∨ (true : Bool) = false
        ∨ (some sampleFiles : Option (List FileInfo)) = none
        ∨ (some sampleFiles : Option (List FileInfo)) = some []) :=
  C5_gateway_failure_characterisation ⟨none, none⟩ (some ⟨"text/plain"⟩)
    ⟨true, some sampleFiles⟩

/-- C6 counterexample: with the ConvertAPI secret absent from the
environment, the conversion endpoint does not return HTTP 500 without an
outbound call — it performs the outbound conversion call (using the
hardcoded fallback secret) and, here, answers 200. -/
theorem C6_counterexample :
    ((processPdfPOST ⟨some "key", none⟩ (some ⟨"application/pdf"⟩)
        ⟨true, some sampleFiles⟩).2 = [Outbound.convertCall])
    ∧ ((processPdfPOST ⟨some "key", none⟩ (some ⟨"application/pdf"⟩)
        ⟨true, some sampleFiles⟩).1.status = 200) := by
  constructor <;> rfl

/-- C6 amended: when the LLM API key is absent, each of the two extraction
endpoints and the comparison endpoint returns HTTP 500 with no outbound
call; the conversion endpoint, by contrast, never treats the absent
conversion secret as a failure — given a file it always performs the
outbound conversion call (falling back to a hardcoded default secret) and
never returns the missing-credential error. -/
theorem C6_credential_precondition (sec k : Option String)
    (img : Option UploadedFile) (txt : Option String) (o1 o2 : Option OrderData)
    (lo lo2 : LlmOutcome OrderData) (lc : LlmOutcome Comparison)
    (now now2 now3 : String) (f : UploadedFile) (up : UpstreamResp) :
    (extractInvoicePOST ⟨none, sec⟩ img lo now
        = (⟨500, { error := some "OpenAI API key is not configured" }⟩, []))
    ∧ (extractTextPOST ⟨none, sec⟩ txt lo2 now2
        = (⟨500, { error := some "OpenAI API key is not configured" }⟩, []))
    ∧ (compareOrdersPOST ⟨none, sec⟩ o1 o2 lc now3
        = (⟨500, { error := some "OpenAI API key is not configured" }⟩, []))
    ∧ ((processPdfPOST ⟨k, none⟩ (some f) up).2 = [Outbound.convertCall])
    ∧ ((processPdfPOST ⟨k, none⟩ (some f) up).1.body.error
        ≠ some "ConvertAPI secret is not configured") := by
  have hd : defaultConvertSecret ≠ "" := by decide
  refine ⟨rfl, rfl, rfl, ?_, ?_⟩ <;>
    · rcases up with ⟨ok, files⟩
      cases ok <;> rcases files with _ | (_ | ⟨f0, fs⟩) <;>
        simp [processPdfPOST, effectiveSecret, hd]

theorem C6_credential_precondition_witness :
    (extractInvoicePOST ⟨none, some "s"⟩ (some ⟨"image/jpeg"⟩) (.ok orderA) "t1"
        = (⟨500, { error := some "OpenAI API key is not configured" }⟩, []))
    ∧ (extractTextPOST ⟨none, some "s"⟩ (some "raw invoice text") (.ok orderB) "t2"
        = (⟨500, { error := some "OpenAI API key is not configured" }⟩, []))
    ∧ (compareOrdersPOST ⟨none, some "s"⟩ (some orderA) (some orderB)
          (.ok sampleComparison) "t3"
        = (⟨500, { error := some "OpenAI API key is not configured" }⟩, []))
    ∧ ((processPdfPOST ⟨some "k", none⟩ (some ⟨"application/pdf"⟩)
          ⟨true, some sampleFiles⟩).2 = [Outbound.convertCall])
    ∧ ((processPdfPOST ⟨some "k", none⟩ (some ⟨"application/pdf"⟩)
          ⟨true, some sampleFiles⟩).1.body.error
        ≠ some "ConvertAPI secret is not configured") :=
  C6_credential_precondition (some "s") (some "k") (some ⟨"image/jpeg"⟩)
    (some "raw invoice text") (some orderA) (some orderB) (.ok orderA) (.ok orderB)
    (.ok sampleComparison) "t1" "t2" "t3" ⟨"application/pdf"⟩ ⟨true, some sampleFiles⟩

/-- C8: for a PDF whose upstream conversion succeeds with a non-empty list
of N page files, the Conversion Gateway returns exactly one page image per
source page: the result has length N, its page numbers are exactly 1..N in
order (hence unique, no gaps, no duplicates), and the i-th page image is
built from the i-th source file. -/
theorem C8_pages_numbered (env : Env) (f : UploadedFile)
    (hft : f.fileType = "application/pdf") (fs : List FileInfo) (hne : fs ≠ []) :
    ∃ ps : List PageImage,
      conversionGateway env (some f) ⟨true, some fs⟩ = .ok ps
      ∧ ps.length = fs.length
      ∧ ps.map (fun p => p.pageNumber) = (List.range fs.length).map (fun i => i + 1)
      ∧ (∀ i (hp : i < ps.length) (hf : i < fs.length),
          (ps.get ⟨i, hp⟩).imageDataUrl
            = "data:image/jpeg;base64," ++ (fs.get ⟨i, hf⟩).fileData) := by
  have hsec := effectiveSecret_ne_empty env
  cases fs with
  | nil => exact absurd rfl hne
  | cons f0 rest =>
      refine ⟨(((f0 :: rest).enum.map (fun p => mkPageRec p.1 p.2)).map (fun p =>
          { pageNumber := p.pageNumber, imageDataUrl := p.imageDataUrl,
            selected := false, width := some p.width, height := some p.height })),
        ?_, ?_, ?_, ?_⟩
      · simp [conversionGateway, processPdfPOST, hft, hsec]
      · simp [List.enum_length]
      · rw [List.map_map, List.map_map]
        apply List.ext_getElem
        · simp [List.enum_length]
        · intro i h1 h2
          simp [List.getElem_enum, mkPageRec]
      · intro i hp hf
        simp [List.get_eq_getElem, List.getElem_map, List.getElem_enum, mkPageRec]

theorem C8_pages_numbered_witness :
    ∃ ps : List PageImage,
      conversionGateway ⟨none, none⟩ (some ⟨"application/pdf"⟩)
          ⟨true, some sampleFiles⟩ = .ok ps
      ∧ ps.length = sampleFiles.length
      ∧ ps.map (fun p => p.pageNumber)
          = (List.range sampleFiles.length).map (fun i => i + 1)
      ∧ (∀ i (hp : i < ps.length) (hf : i < sampleFiles.length),
          (ps.get ⟨i, hp⟩).imageDataUrl
            = "data:image/jpeg;base64," ++ (sampleFiles.get ⟨i, hf⟩).fileData) :=
  C8_pages_numbered ⟨none, none⟩ ⟨"application/pdf"⟩ rfl sampleFiles (by decide)

/-! ## Claim C9: response shapes -/

/-- The conversion endpoint's ok shape: HTTP 200, `success: true`, a pages
payload, no error field. -/
def convertOkShape (r : ConvertResponse) : Prop :=
  r.status = 200 ∧ r.body.success = some true
    ∧ r.body.pages.isSome = true ∧ r.body.error = none

/-- The conversion endpoint's exception shape: HTTP 500 with
`success: false` and an error message. -/
def convertExnShape (r : ConvertResponse) : Prop :=
  r.status = 500 ∧ r.body.success = some false ∧ r.body.error.isSome = true

/-- The conversion endpoint's precondition-failure shape: HTTP 400/500 with
only an error field — no `success` key at all. -/
def convertBareErrorShape (r : ConvertResponse) : Prop :=
  (r.status = 400 ∨ r.status = 500) ∧ r.body.success = none
    ∧ r.body.error.isSome = true ∧ r.body.pages = none

/-- An extraction endpoint's ok shape: HTTP 200, `success: true`, a data
payload, no error field. -/
def extractOkShape (r : ExtractResponse) : Prop :=
  r.status = 200 ∧ r.body.success = some true
    ∧ r.body.data.isSome = true ∧ r.body.error = none

/-- An extraction endpoint's exception shape: HTTP 500 with
`success: false` and an error message. -/
def extractExnShape (r : ExtractResponse) : Prop :=
  r.status = 500 ∧ r.body.success = some false ∧ r.body.error.isSome = true

/-- An extraction endpoint's precondition-failure shape: HTTP 400/500 with
only an error field — no `success` key at all. -/
def extractBareErrorShape (r : ExtractResponse) : Prop :=
  (r.status = 400 ∨ r.status = 500) ∧ r.body.success = none
    ∧ r.body.error.isSome = true ∧ r.body.data = none

theorem processPdfPOST_shape (env : Env) (pdfFile : Option UploadedFile)
    (up : UpstreamResp) :
    (convertOkShape (processPdfPOST env pdfFile up).1
      ∨ convertExnShape (processPdfPOST env pdfFile up).1
      ∨ convertBareErrorShape (processPdfPOST env pdfFile up).1)
    ∧ (pdfFile = none → convertBareErrorShape (processPdfPOST env pdfFile up).1) := by
  have hsec := effectiveSecret_ne_empty env
  rcases up with ⟨ok, files⟩
  cases pdfFile with
  | none =>
      simp [processPdfPOST, convertOkShape, convertExnShape, convertBareErrorShape]
  | some f =>
      cases ok <;> rcases files with _ | (_ | ⟨f0, fs⟩) <;>
        simp [processPdfPOST, hsec, convertOkShape, convertExnShape,
              convertBareErrorShape]

theorem extractInvoicePOST_shape (env : Env) (img : Option UploadedFile)
    (lo : LlmOutcome OrderData) (now : String) :
    (extractOkShape (extractInvoicePOST env img lo now).1
      ∨ extractExnShape (extractInvoicePOST env img lo now).1
      ∨ extractBareErrorShape (extractInvoicePOST env img lo now).1)
    ∧ ((env.openaiApiKey = none ∨ img = none) →
        extractBareErrorShape (extractInvoicePOST env img lo now).1) := by
  rcases env with ⟨key, sec⟩
  cases key <;> cases img <;> cases lo <;>
    simp [extractInvoicePOST, extractOkShape, extractExnShape, extractBareErrorShape]

theorem extractTextPOST_shape (env : Env) (txt : Option String)
    (lo : LlmOutcome OrderData) (now : String) :
    (extractOkShape (extractTextPOST env txt lo now).1
      ∨ extractExnShape (extractTextPOST env txt lo now).1
      ∨ extractBareErrorShape (extractTextPOST env txt lo now).1)
    ∧ ((env.openaiApiKey = none ∨ txt = none ∨ txt = some "") →
        extractBareErrorShape (extractTextPOST env txt lo now).1) := by
  rcases env with ⟨key, sec⟩
  cases key with
  | none =>
      cases txt <;> cases lo <;>
        simp [extractTextPOST, extractOkShape, extractExnShape, extractBareErrorShape]
  | some k =>
      cases txt with
      | none =>
          cases lo <;>
            simp [extractTextPOST, extractOkShape, extractExnShape,
                  extractBareErrorShape]
      | some t =>
          by_cases ht : t = "" <;> cases lo <;>
            simp [extractTextPOST, ht, extractOkShape, extractExnShape,
                  extractBareErrorShape]

/-- C9: every response of the conversion and of the two extraction
endpoints has one of exactly three shapes — ok (`success: true` with a
payload), exception (`success: false` with an error, HTTP 500), or a bare
error body with no `success` key at all (the precondition failures: missing
file, missing text, or missing credential, HTTP 400/500); on every
precondition-failure input the bare shape is produced, and a caller testing
the truthiness of `success` evaluates it to false there, classifying the
precondition failure as a failed conversion/extraction. -/
theorem C9_response_shapes (env : Env) (pdfFile : Option UploadedFile)
    (up : UpstreamResp) (img : Option UploadedFile) (lo : LlmOutcome OrderData)
    (now : String) (txt : Option String) (lo2 : LlmOutcome OrderData)
    (now2 : String) :
    (convertOkShape (processPdfPOST env pdfFile up).1
      ∨ convertExnShape (processPdfPOST env pdfFile up).1
      ∨ convertBareErrorShape (processPdfPOST env pdfFile up).1)
    ∧ (pdfFile = none → convertBareErrorShape (processPdfPOST env pdfFile up).1)
    ∧ (convertBareErrorShape (processPdfPOST env pdfFile up).1 →
        (processPdfPOST env pdfFile up).1.body.success.getD false = false)
    ∧ (extractOkShape (extractInvoicePOST env img lo now).1
      ∨ extractExnShape (extractInvoicePOST env img lo now).1
      ∨ extractBareErrorShape (extractInvoicePOST env img lo now).1)
    ∧ ((env.openaiApiKey = none ∨ img = none) →
        extractBareErrorShape (extractInvoicePOST env img lo now).1)
    ∧ (extractBareErrorShape (extractInvoicePOST env img lo now).1 →
        (extractInvoicePOST env img lo now).1.body.success.getD false = false)
    ∧ (extractOkShape (extractTextPOST env txt lo2 now2).1
      ∨ extractExnShape (extractTextPOST env txt lo2 now2).1
      ∨ extractBareErrorShape (extractTextPOST env txt lo2 now2).1)
    ∧ ((env.openaiApiKey = none ∨ txt = none ∨ txt = some "") →
        extractBareErrorShape (extractTextPOST env txt lo2 now2).1)
    ∧ (extractBareErrorShape (extractTextPOST env txt lo2 now2).1 →
        (extractTextPOST env txt lo2 now2).1.body.success.getD false = false) := by
  refine ⟨(processPdfPOST_shape env pdfFile up).1,
          (processPdfPOST_shape env pdfFile up).2, ?_,
          (extractInvoicePOST_shape env img lo now).1,
          (extractInvoicePOST_shape env img lo now).2, ?_,
          (extractTextPOST_shape env txt lo2 now2).1,
          (extractTextPOST_shape env txt lo2 now2).2, ?_⟩
  · intro hb
    simp [hb.2.1]
  · intro hb
    simp [hb.2.1]
  · intro hb
    simp [hb.2.1]

theorem C9_response_shapes_witness :
    (convertOkShape (processPdfPOST ⟨none, none⟩ none ⟨true, some sampleFiles⟩).1
      ∨ convertExnShape (processPdfPOST ⟨none, none⟩ none ⟨true, some sampleFiles⟩).1
      ∨ convertBareErrorShape
          (processPdfPOST ⟨none, none⟩ none ⟨true, some sampleFiles⟩).1)
    ∧ ((none : Option UploadedFile) = none →
        convertBareErrorShape
          (processPdfPOST ⟨none, none⟩ none ⟨true, some sampleFiles⟩).1)
    ∧ (convertBareErrorShape
          (processPdfPOST ⟨none, none⟩ none ⟨true, some sampleFiles⟩).1 →
        (processPdfPOST ⟨none, none⟩ none
            ⟨true, some sampleFiles⟩).1.body.success.getD false = false)
    ∧ (extractOkShape
          (extractInvoicePOST ⟨none, none⟩ (some ⟨"image/jpeg"⟩) (.ok orderA) "t").1
      ∨ extractExnShape
          (extractInvoicePOST ⟨none, none⟩ (some ⟨"image/jpeg"⟩) (.ok orderA) "t").1
      ∨ extractBareErrorShape
          (extractInvoicePOST ⟨none, none⟩ (some ⟨"image/jpeg"⟩) (.ok orderA) "t").1)
    ∧ (((⟨none, none⟩ : Env).openaiApiKey = none
          ∨ (some (UploadedFile.mk "image/jpeg") : Option UploadedFile) = none) →
        extractBareErrorShape
          (extractInvoicePOST ⟨none, none⟩ (some ⟨"image/jpeg"⟩) (.ok orderA) "t").1)
    ∧ (extractBareErrorShape
          (extractInvoicePOST ⟨none, none⟩ (some ⟨"image/jpeg"⟩) (.ok orderA) "t").1 →
        (extractInvoicePOST ⟨none, none⟩ (some ⟨"image/jpeg"⟩)
            (.ok orderA) "t").1.body.success.getD false = false)
    ∧ (extractOkShape (extractTextPOST ⟨none, none⟩ (some "") (.ok orderB) "t").1
      ∨ extractExnShape (extractTextPOST ⟨none, none⟩ (some "") (.ok orderB) "t").1
      ∨ extractBareErrorShape
          (extractTextPOST ⟨none, none⟩ (some "") (.ok orderB) "t").1)
    ∧ (((⟨none, none⟩ : Env).openaiApiKey = none
          ∨ (some "" : Option String) = none ∨ (some "" : Option String) = some "") →
        extractBareErrorShape
          (extractTextPOST ⟨none, none⟩ (some "") (.ok orderB) "t").1)
    ∧ (extractBareErrorShape (extractTextPOST ⟨none, none⟩ (some "") (.ok orderB) "t").1 →
        (extractTextPOST ⟨none, none⟩ (some "")
            (.ok orderB) "t").1.body.success.getD false = false) :=
  C9_response_shapes ⟨none, none⟩ none ⟨true, some sampleFiles⟩
    (some ⟨"image/jpeg"⟩) (.ok orderA) "t" (some "") (.ok orderB) "t"

theorem C10_inflight_result_null_witness :
    (∀ t ∈ (compareOrders appStateReady .thrown).inFlightStates,
        t.comparing = true ∧ t.comparisonResult = none)
    ∧ ((compareOrders appStateReady .thrown).call.isSome = true →
        (compareOrders appStateReady .thrown).inFlightStates
            = [{ appStateReady with comparing := true, comparisonResult := none }]
          ∧ (compareOrders appStateReady .thrown).final.comparisonResult
              = some (storedComparison .thrown)
          ∧ (compareOrders appStateReady .thrown).final.comparing = false)
    ∧ ((compareOrders appStateReady .thrown).call = none →
        (compareOrders appStateReady .thrown).final = appStateReady) :=
  C10_inflight_result_null appStateReady .thrown

end ShippingDocs
